import Mathlib

/-!
Shallow embedding of the gripper controller in `RQGripper.py` (class `RQGripper`).

The arm-side SDK (`rm_write_registers`, `rm_read_multiple_input_registers`,
`rm_delete_robot_arm`) is modelled as an oracle `Chan`: the result of the n-th
write call and the n-th read call made by one controller operation.  Per the
channel contract (spec section 4.1, which the code's `try/except` blocks
realize), a write reports success as a boolean and never throws past the
boundary, while a read may fail (modelled by `none`), in which case the
caller's `except` clause runs.

Register values are integers; a read returns a sequence of blocks
(`List (List ℤ)`), of which the code uses `data[1][0]` (status byte) and
`data[1][4]` (position).  Out-of-range indexing raises in Python and is caught
by the surrounding `except`, hence the `Option`-matching below.

Each operation also reports the register writes it issued (the list of 6-word
vectors, in order) and the number of status reads it performed, so that
transaction-count properties can be stated.

The wait loop of `go_to_position` sleeps 0.1 s per iteration, so the elapsed
time at the k-th timeout check is modelled as k/10 seconds (rational).  The
loop itself need not terminate, so it takes a fuel bound: `none` means the
loop was still running after `fuel` iterations.
-/

namespace RQGripper

/-- Oracle for the arm-side SDK: success of the n-th register write issued by
an operation, and the block sequence returned by its n-th status read
(`none` = the read raised). -/
structure Chan where
  writeOk : Nat → Bool
  readVal : Nat → Option (List (List ℤ))

/-- `get_position` (RQGripper.py lines 115-127): read the input registers and
return `data[1][4]`; any exception (failed read or out-of-range indexing) is
caught and the sentinel -1 is returned.  `k` is the index of the read this
call performs. -/
def get_position (c : Chan) (k : Nat) : ℤ :=
  match c.readVal k with
  | none => -1
  | some data =>
    match data[1]? with
    | none => -1
    | some blk =>
      match blk[4]? with
      | none => -1
      | some v => v

/-- `get_action_status` (lines 129-146): read the input registers, take the
status byte `data[1][0]`, raise `ValueError` if it is outside [0,255], else
return `(byte >> 3) & 1`.  The `except Exception` clause catches both a failed
read and the `ValueError`, returning -1 in either case. -/
def get_action_status (c : Chan) (k : Nat) : ℤ :=
  match c.readVal k with
  | none => -1
  | some data =>
    match data[1]? with
    | none => -1
    | some blk =>
      match blk[0]? with
      | none => -1
      | some b =>
        if b < 0 ∨ 255 < b then -1
        else (((b.toNat >>> 3) &&& 1 : ℕ) : ℤ)

/-- `activate` (lines 64-77): write `[0,0,0,0,0,0]` then `[1,0,0,0,0,0]`, and
return `all([result1, result2])`.  Second component: the writes issued. -/
def activate (c : Chan) : Bool × List (List ℤ) :=
  (c.writeOk 0 && c.writeOk 1, [[0, 0, 0, 0, 0, 0], [1, 0, 0, 0, 0, 0]])

/-- The only exception `go_to_position` lets escape: the `ValueError` raised
before the `try` block when the position argument is out of range. -/
inductive GripErr where
  | invalidArgument
deriving DecidableEq

/-- How the wait loop ended: the guard saw the target position (`done`), or
the `TimeoutError` branch fired (`timedOut`). -/
inductive LoopOut where
  | done
  | timedOut
deriving DecidableEq

/-- The Python guard `if timeout and (time.time() - start_time) > timeout`:
`None` and `0` are falsy, so the deadline is checked only for a nonzero
timeout value. -/
def timeoutExceeded (timeout : Option ℚ) (elapsed : ℚ) : Bool :=
  match timeout with
  | none => false
  | some t => decide (t ≠ 0) && decide (t < elapsed)

/-- The wait loop of `go_to_position` (lines 103-108):
`while not self.get_position() == position`, with the timeout check and a
0.1 s sleep in the body.  `k` indexes the poll (also: k sleeps have elapsed,
so elapsed time is k/10 s); `fuel` bounds the number of iterations modelled.
Returns the loop outcome (`none` if still running after `fuel` polls) and the
number of reads performed. -/
def waitLoop (c : Chan) (p : ℤ) (timeout : Option ℚ) : Nat → Nat → Option LoopOut × Nat
  | _, 0 => (none, 0)
  | k, fuel + 1 =>
    if get_position c k = p then (some LoopOut.done, 1)
    else if timeoutExceeded timeout ((k : ℚ) / 10) then (some LoopOut.timedOut, 1)
    else
      let r := waitLoop c p timeout (k + 1) fuel
      (r.1, r.2 + 1)

/-- `go_to_position` (lines 79-113).  Result: `error invalidArgument` for the
escaping `ValueError`; otherwise `ok b` where `b` is what the call returns
(the write's result after the loop exits normally, `False` when the caught
`TimeoutError` path runs); `none` when the wait loop was still running after
`fuel` polls.  Also returns the writes issued and the number of reads. -/
def go_to_position (c : Chan) (position speed force : ℤ) (wait : Bool)
    (timeout : Option ℚ) (fuel : Nat) :
    Option (Except GripErr Bool) × List (List ℤ) × Nat :=
  if ¬(0 ≤ position ∧ position ≤ 255) then
    (some (Except.error GripErr.invalidArgument), [], 0)
  else
    let result := c.writeOk 0
    let cmd : List ℤ := [9, 0, 0, position, speed, force]
    if wait then
      match waitLoop c position timeout 0 fuel with
      | (none, n) => (none, [cmd], n)
      | (some LoopOut.done, n) => (some (Except.ok result), [cmd], n)
      | (some LoopOut.timedOut, n) => (some (Except.ok false), [cmd], n)
    else (some (Except.ok result), [cmd], 0)

/-- The wait loop terminates (for some fuel the modelled loop has exited). -/
def loopTerminates (c : Chan) (p : ℤ) (timeout : Option ℚ) : Prop :=
  ∃ fuel, ((waitLoop c p timeout 0 fuel).1).isSome

/-- `close` (lines 164-171): `if self._handle: self._arm.rm_delete_robot_arm()`
inside a catch-all, and `self._handle` is never assigned.  Input: truthiness
of `_handle`; output: `_handle` after the call and the number of
`rm_delete_robot_arm` calls issued.  The catch-all means the call never
raises, whatever the delete does. -/
def close (handle : Bool) : Bool × Nat :=
  (handle, if handle then 1 else 0)

/-! Helper lemmas about the wait loop. -/

/-- If the loop exits with `done`, some poll returned exactly the target. -/
theorem waitLoop_done_converge (c : Chan) (p : ℤ) (timeout : Option ℚ) :
    ∀ fuel k, (waitLoop c p timeout k fuel).1 = some LoopOut.done →
      ∃ j, get_position c j = p := by
  intro fuel
  induction fuel with
  | zero => intro k h; simp [waitLoop] at h
  | succ n ih =>
    intro k h
    by_cases hc : get_position c k = p
    · exact ⟨k, hc⟩
    · by_cases ht : timeoutExceeded timeout ((k : ℚ) / 10) = true
      · simp [waitLoop, hc, ht] at h
      · simp only [waitLoop, if_neg hc, if_neg ht] at h
        exact ih (k + 1) h

/-- If the exit condition (exact convergence or exceeded deadline) holds at
poll index `K`, the loop run from any `k ≤ K` with enough fuel has exited. -/
theorem waitLoop_exit (c : Chan) (p : ℤ) (timeout : Option ℚ) (K : Nat)
    (hK : get_position c K = p ∨ timeoutExceeded timeout ((K : ℚ) / 10) = true) :
    ∀ fuel k, K + 1 ≤ k + fuel → k ≤ K →
      ((waitLoop c p timeout k fuel).1).isSome = true := by
  intro fuel
  induction fuel with
  | zero => intro k h1 h2; omega
  | succ n ih =>
    intro k h1 h2
    by_cases hc : get_position c k = p
    · simp [waitLoop, hc]
    · by_cases ht : timeoutExceeded timeout ((k : ℚ) / 10) = true
      · simp [waitLoop, hc, ht]
      · have hk : k ≠ K := by
          rintro rfl
          rcases hK with h | h
          · exact hc h
          · exact ht h
        simp only [waitLoop, if_neg hc, if_neg ht]
        exact ih (k + 1) (by omega) (by omega)

/-- A nonzero timeout value is eventually exceeded by the k/10 elapsed clock. -/
theorem timeoutExceeded_eventually (t : ℚ) (ht : t ≠ 0) :
    ∃ K : Nat, timeoutExceeded (some t) ((K : ℚ) / 10) = true := by
  obtain ⟨K, hK⟩ := exists_nat_gt (10 * t)
  refine ⟨K, ?_⟩
  simp only [timeoutExceeded, Bool.and_eq_true, decide_eq_true_eq]
  refine ⟨ht, ?_⟩
  rw [lt_div_iff₀ (by norm_num : (0 : ℚ) < 10)]
  linarith

/-- With no timeout (`None`), the loop can only exit by exact convergence. -/
theorem waitLoop_none_no_timeout (c : Chan) (p : ℤ) :
    ∀ fuel k, (waitLoop c p none k fuel).1 = some LoopOut.done ∨
      (waitLoop c p none k fuel).1 = none := by
  intro fuel
  induction fuel with
  | zero => intro k; simp [waitLoop]
  | succ n ih =>
    intro k
    by_cases hc : get_position c k = p
    · simp [waitLoop, hc]
    · have ht : timeoutExceeded none ((k : ℚ) / 10) = false := rfl
      simp only [waitLoop, if_neg hc, ht, Bool.false_eq_true, if_false]
      exact ih (k + 1)

/-- A zero timeout value is falsy in the Python guard, so the loop behaves
exactly as with `timeout=None`. -/
theorem waitLoop_zero_eq_none (c : Chan) (p : ℤ) :
    ∀ fuel k, waitLoop c p (some 0) k fuel = waitLoop c p none k fuel := by
  intro fuel
  induction fuel with
  | zero => intro k; rfl
  | succ n ih =>
    intro k
    have hz : timeoutExceeded (some 0) ((k : ℚ) / 10) = false := by
      simp [timeoutExceeded]
    have hn : timeoutExceeded none ((k : ℚ) / 10) = false := rfl
    by_cases hc : get_position c k = p
    · simp [waitLoop, hc]
    · simp only [waitLoop, if_neg hc, hz, hn, Bool.false_eq_true, if_false]
      rw [ih (k + 1)]

/-! Concrete channel oracles used as witnesses and counterexamples. -/

/-- A channel whose status reads always report position 0: a gripper that
never moves. -/
def chanStuck : Chan where
  writeOk := fun _ => true
  readVal := fun _ => some [[0, 0, 0, 0, 0, 0, 0, 0, 0], [0, 0, 0, 0, 0, 0, 0, 0, 0]]

/-- A channel whose status reads report status byte 8 (GTO bit set) and
position 77. -/
def chanConv : Chan where
  writeOk := fun _ => true
  readVal := fun _ => some [[0, 0, 0, 0, 0, 0, 0, 0, 0], [8, 0, 0, 0, 77, 0, 0, 0, 0]]

/-- A channel whose status reads always raise. -/
def chanFail : Chan where
  writeOk := fun _ => true
  readVal := fun _ => none

/-- A channel delivering a corrupted status byte of 256 (out of [0,255]). -/
def chanBad : Chan where
  writeOk := fun _ => true
  readVal := fun _ => some [[0, 0, 0, 0, 0, 0, 0, 0, 0], [256, 0, 0, 0, 3, 0, 0, 0, 0]]

/-! Claim theorems. -/

/-- C2: activate() issues exactly two register writes, in strict order
[0,0,0,0,0,0] (clear/reset) then [1,0,0,0,0,0] (enable), and returns true if
and only if both writes succeed. -/
theorem activate_spec (c : Chan) :
    (activate c).2 = [[0, 0, 0, 0, 0, 0], [1, 0, 0, 0, 0, 0]] ∧
    ((activate c).1 = true ↔ c.writeOk 0 = true ∧ c.writeOk 1 = true) := by
  exact ⟨rfl, by simp [activate]⟩

theorem activate_spec_witness :
    (activate chanConv).2 = [[0, 0, 0, 0, 0, 0], [1, 0, 0, 0, 0, 0]] ∧
    ((activate chanConv).1 = true ↔
      chanConv.writeOk 0 = true ∧ chanConv.writeOk 1 = true) :=
  activate_spec chanConv

/-- C4: for every position argument outside [0,255], go_to_position fails with
the escaping ValueError (InvalidArgument) raised before the try block: zero
register writes and zero reads are performed. -/
theorem goto_invalid_spec (c : Chan) (p s f : ℤ) (w : Bool) (timeout : Option ℚ)
    (fuel : Nat) (hp : p < 0 ∨ 255 < p) :
    go_to_position c p s f w timeout fuel =
      (some (Except.error GripErr.invalidArgument), [], 0) := by
  have h : ¬(0 ≤ p ∧ p ≤ 255) := by omega
  simp [go_to_position, h]

theorem goto_invalid_spec_witness :
    go_to_position chanConv 300 0 0 true none 5 =
      (some (Except.error GripErr.invalidArgument), [], 0) :=
  goto_invalid_spec chanConv 300 0 0 true none 5 (by norm_num)

/-- C6: for every position p in [0,255] and any speed and force, a non-waiting
go_to_position issues exactly one write, the 6-word vector [9,0,0,p,s,f] whose
word 3 is p, performs no reads, and returns the write's own success result. -/
theorem goto_nowait_spec (c : Chan) (p s f : ℤ) (timeout : Option ℚ) (fuel : Nat)
    (hp : 0 ≤ p ∧ p ≤ 255) :
    (go_to_position c p s f false timeout fuel).1 = some (Except.ok (c.writeOk 0)) ∧
    (go_to_position c p s f false timeout fuel).2.1 = [[9, 0, 0, p, s, f]] ∧
    ([9, 0, 0, p, s, f] : List ℤ)[3]? = some p ∧
    (go_to_position c p s f false timeout fuel).2.2 = 0 := by
  simp [go_to_position, hp.1, hp.2]

theorem goto_nowait_spec_witness :
    (go_to_position chanFail 200 3 4 false (some 2) 0).1 =
      some (Except.ok (chanFail.writeOk 0)) ∧
    (go_to_position chanFail 200 3 4 false (some 2) 0).2.1 = [[9, 0, 0, 200, 3, 4]] ∧
    ([9, 0, 0, 200, 3, 4] : List ℤ)[3]? = some 200 ∧
    (go_to_position chanFail 200 3 4 false (some 2) 0).2.2 = 0 :=
  goto_nowait_spec chanFail 200 3 4 (some 2) 0 (by norm_num)

/-- C7: get_position returns word 4 of block 1 of the status read; when the
read transaction fails it returns the sentinel -1 instead of raising. -/
theorem get_position_spec (c : Chan) (k : Nat) :
    (∀ data blk v, c.readVal k = some data → data[1]? = some blk →
        blk[4]? = some v → get_position c k = v) ∧
    (c.readVal k = none → get_position c k = -1) := by
  constructor
  · intro data blk v hr hd hv
    simp [get_position, hr, hd, hv]
  · intro hr
    simp [get_position, hr]

theorem get_position_spec_witness :
    get_position chanConv 0 = 77 ∧ get_position chanFail 0 = -1 :=
  ⟨(get_position_spec chanConv 0).1 _ _ _ rfl rfl rfl,
   (get_position_spec chanFail 0).2 rfl⟩

/-- C10: a caller-supplied timeout of 0 is falsy in the Python guard
`if timeout and ...`, so the call behaves exactly as with timeout=None and the
wait loop can only exit by exact convergence, never with Timeout. -/
theorem zero_timeout_spec (c : Chan) (p s f : ℤ) (w : Bool) (fuel k : Nat) :
    go_to_position c p s f w (some 0) fuel = go_to_position c p s f w none fuel ∧
    waitLoop c p (some 0) k fuel = waitLoop c p none k fuel ∧
    ((waitLoop c p none k fuel).1 = some LoopOut.done ∨
      (waitLoop c p none k fuel).1 = none) := by
  refine ⟨?_, waitLoop_zero_eq_none c p fuel k, waitLoop_none_no_timeout c p fuel k⟩
  unfold go_to_position
  rw [waitLoop_zero_eq_none c p fuel 0]

theorem zero_timeout_spec_witness :
    go_to_position chanStuck 100 0 0 true (some 0) 4 =
      go_to_position chanStuck 100 0 0 true none 4 ∧
    waitLoop chanStuck 100 (some 0) 0 4 = waitLoop chanStuck 100 none 0 4 ∧
    ((waitLoop chanStuck 100 none 0 4).1 = some LoopOut.done ∨
      (waitLoop chanStuck 100 none 0 4).1 = none) :=
  zero_timeout_spec chanStuck 100 0 0 true 4 0

/-- C1: for a target p in [0,255], a waiting go_to_position returns success
only when some poll reported exactly p (not merely at least p); with a
supplied positive timeout and polls that never equal p, the TimeoutError
branch fires and the call fails; and the command write is issued exactly once,
never retried within the call. -/
theorem goto_wait_spec (c : Chan) (p s f : ℤ) (t : ℚ)
    (hp : 0 ≤ p ∧ p ≤ 255) (ht : 0 < t) :
    (∀ timeout fuel, (go_to_position c p s f true timeout fuel).1 =
        some (Except.ok true) → ∃ j, get_position c j = p) ∧
    ((∀ j, get_position c j ≠ p) →
      ∃ fuel, (waitLoop c p (some t) 0 fuel).1 = some LoopOut.timedOut ∧
        (go_to_position c p s f true (some t) fuel).1 = some (Except.ok false)) ∧
    (∀ timeout fuel, (go_to_position c p s f true timeout fuel).2.1 =
        [[9, 0, 0, p, s, f]]) := by
  refine ⟨?_, ?_, ?_⟩
  · intro timeout fuel h
    rcases hw : waitLoop c p timeout 0 fuel with ⟨ro, n⟩
    cases ro with
    | none => simp [go_to_position, hp.1, hp.2, hw] at h
    | some o =>
      cases o with
      | done =>
        exact waitLoop_done_converge c p timeout fuel 0 (by rw [hw])
      | timedOut => simp [go_to_position, hp.1, hp.2, hw] at h
  · intro hnc
    obtain ⟨K, hK⟩ := timeoutExceeded_eventually t (ne_of_gt ht)
    have hs := waitLoop_exit c p (some t) K (Or.inr hK) (K + 1) 0 (by omega) (by omega)
    refine ⟨K + 1, ?_⟩
    rcases hw : waitLoop c p (some t) 0 (K + 1) with ⟨ro, n⟩
    rw [hw] at hs
    cases ro with
    | none => simp at hs
    | some o =>
      cases o with
      | done =>
        obtain ⟨j, hj⟩ := waitLoop_done_converge c p (some t) (K + 1) 0 (by rw [hw])
        exact absurd hj (hnc j)
      | timedOut =>
        refine ⟨rfl, ?_⟩
        simp [go_to_position, hp.1, hp.2, hw]
  · intro timeout fuel
    rcases hw : waitLoop c p timeout 0 fuel with ⟨ro, n⟩
    cases ro with
    | none => simp [go_to_position, hp.1, hp.2, hw]
    | some o => cases o <;> simp [go_to_position, hp.1, hp.2, hw]

theorem goto_wait_spec_witness :
    ((∀ timeout fuel, (go_to_position chanStuck 100 0 0 true timeout fuel).1 =
        some (Except.ok true) → ∃ j, get_position chanStuck j = 100) ∧
    ((∀ j, get_position chanStuck j ≠ 100) →
      ∃ fuel, (waitLoop chanStuck 100 (some (1 / 2)) 0 fuel).1 = some LoopOut.timedOut ∧
        (go_to_position chanStuck 100 0 0 true (some (1 / 2)) fuel).1 =
          some (Except.ok false)) ∧
    (∀ timeout fuel, (go_to_position chanStuck 100 0 0 true timeout fuel).2.1 =
        [[9, 0, 0, 100, 0, 0]])) :=
  goto_wait_spec chanStuck 100 0 0 (1 / 2) (by norm_num) (by norm_num)

/-- C3 counterexample: an out-of-range status byte (256) is surfaced as the
very sentinel -1 that a failed read transaction produces, so the caller can
mistake a corrupted read for a transaction failure: it is not surfaced
distinctly, refuting the ProtocolViolation part of the claim. -/
theorem action_status_sentinel_collision :
    get_action_status chanBad 0 = -1 ∧ get_action_status chanFail 0 = -1 ∧
    get_action_status chanBad 0 = get_action_status chanFail 0 := by
  refine ⟨by decide, rfl, by decide⟩

/-- C3 (amended): get_action_status extracts status byte block[1][0] and for a
byte in [0,255] returns (byte >> 3) & 1 (hence 1 for byte 8, 0 for byte 0);
for a byte outside [0,255] the internally raised ValueError is caught by the
same handler as a read failure and the sentinel -1 is returned -
distinguishable from a real status bit but not from a transaction failure. -/
theorem action_status_spec (c : Chan) (k : Nat) (data : List (List ℤ))
    (blk : List ℤ) (b : ℤ) (hr : c.readVal k = some data)
    (hd : data[1]? = some blk) (hb : blk[0]? = some b) :
    (0 ≤ b → b ≤ 255 →
        get_action_status c k = (((b.toNat >>> 3) &&& 1 : ℕ) : ℤ)) ∧
    ((b < 0 ∨ 255 < b) → get_action_status c k = -1) := by
  constructor
  · intro h0 h255
    have h : ¬(b < 0 ∨ 255 < b) := by omega
    simp [get_action_status, hr, hd, hb, h]
  · intro h
    simp [get_action_status, hr, hd, hb, h]

theorem action_status_spec_witness :
    get_action_status chanConv 0 = 1 ∧ get_action_status chanBad 0 = -1 :=
  ⟨by rw [(action_status_spec chanConv 0 _ _ 8 rfl rfl rfl).1
      (by norm_num) (by norm_num)]; decide,
   (action_status_spec chanBad 0 _ _ 256 rfl rfl rfl).2 (by norm_num)⟩

/-- C5 counterexample: with no timeout (the default) and a gripper stuck away
from the target, the wait loop never exits: the claim that every poll sequence
leads to termination is false. -/
theorem wait_loop_divergence : loopTerminates chanStuck 100 none = False := by
  apply eq_false
  rintro ⟨fuel, hs⟩
  have h : ∀ fuel k, (waitLoop chanStuck 100 none k fuel).1 = none := by
    intro fuel
    induction fuel with
    | zero => intro k; rfl
    | succ n ih =>
      intro k
      have hg : get_position chanStuck k = 0 := rfl
      have hne : ¬(get_position chanStuck k = 100) := by rw [hg]; decide
      have htt : timeoutExceeded none ((k : ℚ) / 10) = false := rfl
      simp only [waitLoop, if_neg hne, htt, Bool.false_eq_true, if_false]
      exact ih (k + 1)
  rw [h fuel 0] at hs
  simp at hs

/-- C5 (amended): the wait loop terminates whenever a nonzero timeout was
supplied, and whenever some poll reports exactly the target; but with a falsy
timeout (None or 0) and polls never equal to the target it spins forever, so
termination does not hold for every input. -/
theorem wait_loop_terminates_spec (c : Chan) (p : ℤ) (timeout : Option ℚ)
    (t : ℚ) (ht : timeout = some t) (htz : t ≠ 0) :
    loopTerminates c p timeout ∧
    (∀ tmo, (∃ k, get_position c k = p) → loopTerminates c p tmo) := by
  constructor
  · subst ht
    obtain ⟨K, hK⟩ := timeoutExceeded_eventually t htz
    exact ⟨K + 1, waitLoop_exit c p (some t) K (Or.inr hK) (K + 1) 0
      (by omega) (by omega)⟩
  · rintro tmo ⟨k, hk⟩
    exact ⟨k + 1, waitLoop_exit c p tmo k (Or.inl hk) (k + 1) 0
      (by omega) (by omega)⟩

theorem wait_loop_terminates_spec_witness :
    loopTerminates chanStuck 100 (some 1) ∧
    (∀ tmo, (∃ k, get_position chanStuck k = 100) →
      loopTerminates chanStuck 100 tmo) :=
  wait_loop_terminates_spec chanStuck 100 (some 1) 1 rfl (by norm_num)

/-- C8 is contradicted by the code: close() never clears `_handle`, so a
second close() passes the `if self._handle` guard again and re-issues the
disconnect; across two calls on a connected gripper two rm_delete_robot_arm
transactions are issued, not at most one.  (Each call still returns without
raising, thanks to the catch-all.) -/
theorem close_twice_two_deletes :
    (close true).1 = true ∧ (close true).2 + (close (close true).1).2 = 2 := by
  decide

/-- C9: during the wait loop a failed status read yields the sentinel -1 from
get_position, which can never equal a valid target (>= 0), so that iteration
does not exit via convergence: the loop silently keeps polling (or hits the
timeout check); the transaction failure is never surfaced to the caller as
such. -/
theorem wait_loop_read_failure_spec (c : Chan) (p : ℤ) (timeout : Option ℚ)
    (k fuel : Nat) (hp : 0 ≤ p) (hr : c.readVal k = none) :
    get_position c k = -1 ∧
    (waitLoop c p timeout k (fuel + 1)).1 =
      (if timeoutExceeded timeout ((k : ℚ) / 10) then some LoopOut.timedOut
       else (waitLoop c p timeout (k + 1) fuel).1) := by
  have hg : get_position c k = -1 := by simp [get_position, hr]
  refine ⟨hg, ?_⟩
  have hne : ¬(get_position c k = p) := by rw [hg]; omega
  by_cases htt : timeoutExceeded timeout ((k : ℚ) / 10) = true
  · simp only [waitLoop, if_neg hne, if_pos htt]
  · simp only [waitLoop, if_neg hne, if_neg htt]

theorem wait_loop_read_failure_spec_witness :
    get_position chanFail 0 = -1 ∧
    (waitLoop chanFail 100 none 0 (3 + 1)).1 =
      (if timeoutExceeded none (((0 : Nat) : ℚ) / 10) then some LoopOut.timedOut
       else (waitLoop chanFail 100 none (0 + 1) 3).1) :=
  wait_loop_read_failure_spec chanFail 100 none 0 3 (by norm_num) rfl

end RQGripper
